import Mathlib

/-!
Verification development for the Excel batch-integration core
(`core_excel.py`).  The pipeline reads a shipment sheet and a backlog
("滞留") sheet from a data workbook, extracts fixed positional columns,
coerces numeric and date fields, filters by the region literal "舟山区",
merges the two row sets, and writes the result into fixed columns of the
"宁波发货" sheet of a template workbook, preserving all other cells.
-/

namespace BatchIntegration

/-- A calendar date (year, month, day); the result of `.dt.date` truncation. -/
structure Date where
  year : Nat
  month : Nat
  day : Nat
  deriving DecidableEq, Repr

/-- A date-time value, as carried by a spreadsheet cell or a pandas
Timestamp: a date plus a time of day. -/
structure DateTime where
  year : Nat
  month : Nat
  day : Nat
  hour : Nat
  minute : Nat
  second : Nat
  deriving DecidableEq, Repr

/-- The date component of a `DateTime` (what `.dt.date` keeps). -/
def DateTime.toDate (dt : DateTime) : Date :=
  ⟨dt.year, dt.month, dt.day⟩

/-- A spreadsheet / dataframe cell value.  `null` stands for the absent
value (`None` / `NaN` / `NaT`); `formula` is an openpyxl formula string
stored as a cell value. -/
inductive Value where
  | null : Value
  | str (s : String) : Value
  | num (q : ℚ) : Value
  | date (d : Date) : Value
  | dateTime (dt : DateTime) : Value
  | formula (f : String) : Value
  deriving DecidableEq, Repr

/-- Read a list of decimal digit characters as a natural number;
`none` if the list is empty or contains a non-digit. -/
def natOfDigits (cs : List Char) : Option Nat :=
  if cs.isEmpty then none
  else if cs.all (fun c => c.isDigit) then
    some (cs.foldl (fun n c => 10 * n + (c.toNat - 48)) 0)
  else none

/-- Whitespace test for trimming. -/
def isWS (c : Char) : Bool :=
  c = ' ' || c = '\t' || c = '\n' || c = '\r'

/-- Strip leading and trailing whitespace from a character list. -/
def trimChars (cs : List Char) : List Char :=
  ((cs.dropWhile isWS).reverse.dropWhile isWS).reverse

/-- Split a character list on a separator character; always returns at
least one (possibly empty) group. -/
def splitOnChar (sep : Char) : List Char → List (List Char)
  | [] => [[]]
  | c :: rest =>
    match splitOnChar sep rest with
    | [] => if c = sep then [[], []] else [[c]]
    | g :: gs => if c = sep then [] :: g :: gs else (c :: g) :: gs

/-- Parse a decimal number string the way Python / `pd.to_numeric`
accepts plain decimal literals: optional surrounding whitespace, optional
sign, an integer part and/or a fractional part separated by a dot.
Anything else (in particular the empty string) fails with `none`. -/
def parseNum (s : String) : Option ℚ :=
  let t := trimChars s.toList
  let (sign, body) :=
    match t with
    | '-' :: rest => ((-1 : ℚ), rest)
    | '+' :: rest => ((1 : ℚ), rest)
    | _ => ((1 : ℚ), t)
  match splitOnChar '.' body with
  | [intPart] => (natOfDigits intPart).map (fun n => sign * (n : ℚ))
  | [intPart, fracPart] =>
    if intPart.isEmpty && fracPart.isEmpty then none
    else
      let ip := if intPart.isEmpty then some 0 else natOfDigits intPart
      let fp := if fracPart.isEmpty then some 0 else natOfDigits fracPart
      match ip, fp with
      | some i, some f =>
        some (sign * ((i : ℚ) + (f : ℚ) / (10 : ℚ) ^ fracPart.length))
      | _, _ => none
  | _ => none

/-- One cell under `pd.to_numeric(errors='coerce')` (line 44 of
`core_excel.py`): numbers pass through, strings are parsed, and every
value that does not parse as a number becomes `null` (NaN). -/
def to_numeric (v : Value) : Value :=
  match v with
  | Value.num q => Value.num q
  | Value.str s =>
    match parseNum s with
    | some q => Value.num q
    | none => Value.null
  | _ => Value.null

/-- Whether a cell value parses as a number under `pd.to_numeric`. -/
def parsesAsNum (v : Value) : Bool :=
  match v with
  | Value.num _ => true
  | Value.str s => (parseNum s).isSome
  | _ => false

/-- Parse the date part of a date string: `Y-M-D` or `Y/M/D` with a
plausibility check on month and day, as `pd.to_datetime` rejects
out-of-range components. -/
def parseDatePart (cs : List Char) : Option Date :=
  let parts :=
    if (splitOnChar '-' cs).length ≥ 2 then splitOnChar '-' cs
    else splitOnChar '/' cs
  match parts with
  | [ys, ms, ds] =>
    match natOfDigits ys, natOfDigits ms, natOfDigits ds with
    | some y, some m, some d =>
      if 1 ≤ m ∧ m ≤ 12 ∧ 1 ≤ d ∧ d ≤ 31 then some ⟨y, m, d⟩ else none
    | _, _, _ => none
  | _ => none

/-- Parse the time part of a date-time string: `H:M:S` or `H:M`. -/
def parseTimePart (cs : List Char) : Option (Nat × Nat × Nat) :=
  match splitOnChar ':' cs with
  | [hs, ms, ss] =>
    match natOfDigits hs, natOfDigits ms, natOfDigits ss with
    | some h, some m, some sec =>
      if h ≤ 23 ∧ m ≤ 59 ∧ sec ≤ 59 then some (h, m, sec) else none
    | _, _, _ => none
  | [hs, ms] =>
    match natOfDigits hs, natOfDigits ms with
    | some h, some m => if h ≤ 23 ∧ m ≤ 59 then some (h, m, 0) else none
    | _, _ => none
  | _ => none

/-- Parse a date or date-time string (`"2024-01-02"`,
`"2024-01-02 08:00:00"`, slash-separated variants). -/
def parseDateTimeStr (s : String) : Option DateTime :=
  match splitOnChar ' ' (trimChars s.toList) with
  | [dpart] =>
    (parseDatePart dpart).map (fun d => ⟨d.year, d.month, d.day, 0, 0, 0⟩)
  | [dpart, tpart] =>
    match parseDatePart dpart, parseTimePart tpart with
    | some d, some (h, m, sec) => some ⟨d.year, d.month, d.day, h, m, sec⟩
    | _, _ => none
  | _ => none

/-- One cell under `pd.to_datetime(..., errors='coerce')` (lines 21-26 of
`core_excel.py`): date-time cells pass through, date cells gain a zero
time, strings are parsed, everything else coerces to `none` (NaT). -/
def to_datetime (v : Value) : Option DateTime :=
  match v with
  | Value.dateTime dt => some dt
  | Value.date d => some ⟨d.year, d.month, d.day, 0, 0, 0⟩
  | Value.str s => parseDateTimeStr s
  | _ => none

/-- One cell of `process_date_column` (lines 14-31 of `core_excel.py`):
coerce to a date-time, keep only the date component of valid values
(`.dt.date`), and leave invalid values as `null` (NaT). -/
def processDateCell (v : Value) : Value :=
  match to_datetime v with
  | some dt => Value.date dt.toDate
  | none => Value.null

/-- `process_date_column` applied to a whole column. -/
def process_date_column (col : List Value) : List Value :=
  col.map processDateCell

/-! ## Source rows and the extraction / filter pipelines -/

/-- One raw source-sheet row, read positionally (0-indexed columns), as
`df.iloc` does; pandas sheets are rectangular, so every column yields a
value (absent data is `null`). -/
def RawRow : Type := Nat → Value

/-- The normalized record shape shared by both sources: one field per
retained output column (the dict keys built at lines 91-100 and 119-129
of `core_excel.py`). -/
structure MergedRow where
  region : Value
  customer : Value
  item_description : Value
  ship_quantity : Value
  net_weight : Value
  list_price : Value
  tax_rate : Value
  signoff_date : Value
  deriving DecidableEq, Repr

/-- Shipment-sheet extraction (lines 91-100): region=col 3, customer=7,
item_description=15, ship_quantity=21, net_weight=24, list_price=26,
tax_rate=43, signoff_date=28 (the AC column, with time of day). -/
def extract_ship_row (r : RawRow) : MergedRow :=
  { region := r 3
    customer := r 7
    item_description := r 15
    ship_quantity := r 21
    net_weight := r 24
    list_price := r 26
    tax_rate := r 43
    signoff_date := r 28 }

/-- `convert_numeric_columns` on the four numeric fields followed by
`process_date_column` on the signoff date (lines 104-109). -/
def normalize_ship_row (m : MergedRow) : MergedRow :=
  { m with
    ship_quantity := to_numeric m.ship_quantity
    net_weight := to_numeric m.net_weight
    list_price := to_numeric m.list_price
    tax_rate := to_numeric m.tax_rate
    signoff_date := processDateCell m.signoff_date }

/-- The shipment pipeline: extract, normalize, then keep only rows whose
region equals the literal `"舟山区"` (line 112). -/
def shipPipeline (rows : List RawRow) : List MergedRow :=
  ((rows.map extract_ship_row).map normalize_ship_row).filter
    (fun m => decide (m.region = Value.str "舟山区"))

/-- A backlog ("滞留") row before the organization column is dropped:
the retained fields plus `organization_check` (the 发运库存组织 column,
used only for filtering). -/
structure DelayRow where
  region : Value
  customer : Value
  item_description : Value
  ship_quantity : Value
  net_weight : Value
  list_price : Value
  tax_rate : Value
  organization_check : Value
  deriving DecidableEq, Repr

/-- Backlog-sheet extraction (lines 119-129): region=col 3, customer=5,
item_description=18, ship_quantity=27, net_weight=30, list_price=33,
tax_rate=55, organization_check=26; the signoff date is never read from
the source. -/
def extract_delay_row (r : RawRow) : DelayRow :=
  { region := r 3
    customer := r 5
    item_description := r 18
    ship_quantity := r 27
    net_weight := r 30
    list_price := r 33
    tax_rate := r 55
    organization_check := r 26 }

/-- `convert_numeric_columns` on the backlog numeric fields (line 133). -/
def normalize_delay_row (d : DelayRow) : DelayRow :=
  { d with
    ship_quantity := to_numeric d.ship_quantity
    net_weight := to_numeric d.net_weight
    list_price := to_numeric d.list_price
    tax_rate := to_numeric d.tax_rate }

/-- The backlog filter (lines 139-143): region equals `"舟山区"`, and
the shipping organization is non-null (`notna()`) and not the empty
string. -/
def delayKeep (d : DelayRow) : Bool :=
  decide (d.region = Value.str "舟山区") &&
    !(decide (d.organization_check = Value.null)) &&
    !(decide (d.organization_check = Value.str ""))

/-- Backlog rows after extraction, normalization and filtering, with the
organization column still present (just before line 144 drops it). -/
def delayFiltered (rows : List RawRow) : List DelayRow :=
  ((rows.map extract_delay_row).map normalize_delay_row).filter delayKeep

/-- Drop the organization column (line 144) and set the signoff date to
null (line 136: the backlog signoff column is uniformly `None`). -/
def delay_to_merged (d : DelayRow) : MergedRow :=
  { region := d.region
    customer := d.customer
    item_description := d.item_description
    ship_quantity := d.ship_quantity
    net_weight := d.net_weight
    list_price := d.list_price
    tax_rate := d.tax_rate
    signoff_date := Value.null }

/-- The full backlog pipeline producing output-shaped rows. -/
def delayPipeline (rows : List RawRow) : List MergedRow :=
  (delayFiltered rows).map delay_to_merged

/-- Whether every field of a merged row is null (`dropna(how='all')`). -/
def row_all_null (m : MergedRow) : Bool :=
  decide (m.region = Value.null) && decide (m.customer = Value.null) &&
    decide (m.item_description = Value.null) &&
    decide (m.ship_quantity = Value.null) &&
    decide (m.net_weight = Value.null) &&
    decide (m.list_price = Value.null) &&
    decide (m.tax_rate = Value.null) &&
    decide (m.signoff_date = Value.null)

/-- Lines 149-150: concatenate filtered shipment rows then filtered
backlog rows, and drop fully-null rows. -/
def mergeRows (s d : List RawRow) : List MergedRow :=
  ((shipPipeline s) ++ (delayPipeline d)).filter (fun m => !(row_all_null m))

/-! ## The template workbook model and the writer -/

/-- One openpyxl cell: a value (a formula is a value beginning with `=`,
modelled by the `formula` constructor) and a number-format string. -/
structure Cell where
  value : Value
  numberFormat : String
  deriving Repr

/-- An openpyxl worksheet: a total cell grid indexed by (row, column),
1-indexed as in openpyxl, plus the current maximum populated row. -/
structure Worksheet where
  cells : Nat → Nat → Cell
  maxRow : Nat

/-- `ws.cell(row=r, column=c).value = v`: replace the value of one cell,
leaving its number format (and every other cell) untouched. -/
def setCellValue (w : Worksheet) (r c : Nat) (v : Value) : Worksheet :=
  { w with
    cells := fun q p =>
      if q = r ∧ p = c then { w.cells q p with value := v } else w.cells q p }

/-- `ws.cell(row=r, column=c).number_format = fmt`: replace the number
format of one cell, leaving its value (and every other cell) untouched. -/
def setCellFormat (w : Worksheet) (r c : Nat) (fmt : String) : Worksheet :=
  { w with
    cells := fun q p =>
      if q = r ∧ p = c then { w.cells q p with numberFormat := fmt }
      else w.cells q p }

/-- The fixed set of template columns holding data (line 166):
D, H, O, U, X, Z, AQ, AS. -/
def clean_columns : List Nat := [4, 8, 15, 21, 24, 26, 43, 45]

/-- The inner loop of the cleaning step: blank the value of every
`clean_columns` cell of one row (line 171). -/
def clearRowCols (w : Worksheet) (r : Nat) : Worksheet :=
  clean_columns.foldl (fun w2 c => setCellValue w2 r c Value.null) w

/-- The outer cleaning loop, unrolled as a recursion on the number of
remaining rows: blank rows `r, r+1, ..., r+k-1`. -/
def clearRows (w : Worksheet) (r : Nat) : Nat → Worksheet
  | 0 => w
  | k + 1 => clearRows (clearRowCols w r) (r + 1) k

/-- Lines 166-171: blank the `clean_columns` values of rows 2 through
`max_row` (the header row 1 is kept); `max_row` is read once before any
modification. -/
def clearTemplate (w : Worksheet) : Worksheet :=
  clearRows w 2 (w.maxRow - 1)

/-- Lines 179-198: write one merged row into spreadsheet row `r`,
re-assigning the display format of each numeric cell and of the date
cell together with its value. -/
def writeRow (w : Worksheet) (r : Nat) (m : MergedRow) : Worksheet :=
  let w := setCellValue w r 4 m.region
  let w := setCellValue w r 8 m.customer
  let w := setCellValue w r 15 m.item_description
  let w := setCellFormat (setCellValue w r 21 m.ship_quantity) r 21 "0.00"
  let w := setCellFormat (setCellValue w r 24 m.net_weight) r 24 "0.000"
  let w := setCellFormat (setCellValue w r 26 m.list_price) r 26 "0.00"
  let w := setCellFormat (setCellValue w r 43 m.tax_rate) r 43 "0.00%"
  setCellFormat (setCellValue w r 45 m.signoff_date) r 45 "yyyy/mm/dd"

/-- The filling loop (lines 175-198): row `i` of the merged data goes to
spreadsheet row `start + i`; `start` is 2. -/
def writeRows (w : Worksheet) (start : Nat) : List MergedRow → Worksheet
  | [] => w
  | m :: rest => writeRows (writeRow w start m) (start + 1) rest

/-- An openpyxl workbook: named sheets in workbook order. -/
structure Workbook where
  sheets : List (String × Worksheet)

/-- Replace the named sheet's contents (the in-place mutation of `ws`). -/
def setSheet (wb : Workbook) (name : String) (ws : Worksheet) : Workbook :=
  { sheets := wb.sheets.map (fun p => if p.1 = name then (p.1, ws) else p) }

/-- The complete writer effect on the template workbook: clean the fixed
columns of the target sheet, then fill the merged rows from row 2. -/
def write_output (twb : Workbook) (ws : Worksheet) (merged : List MergedRow) :
    Workbook :=
  setSheet twb "宁波发货" (writeRows (clearTemplate ws) 2 merged)

/-! ## The end-to-end routine `process_excel_core` -/

/-- A data workbook: named sheets of raw positional rows. -/
def DataFile : Type := List (String × List RawRow)

/-- Whether `pat` occurs at the head of `cs`. -/
def leadsWith : List Char → List Char → Bool
  | [], _ => true
  | _ :: _, [] => false
  | p :: ps, c :: cs => p = c && leadsWith ps cs

/-- Whether `pat` occurs anywhere inside `cs`. -/
def hasSubList (pat : List Char) : List Char → Bool
  | [] => pat.isEmpty
  | c :: cs => leadsWith pat (c :: cs) || hasSubList pat cs

/-- Substring containment test (Python's `"发货" in name`). -/
def containsSub (s pat : String) : Bool :=
  hasSubList pat.toList s.toList

/-- The sheet locator (lines 82-83): the rows of the first sheet whose
name contains the marker, `none` when no sheet matches (in Python the
`[0]` indexing then raises `IndexError`). -/
def findSheetRows (df : DataFile) (marker : String) : Option (List RawRow) :=
  (df.find? (fun p => containsSub p.1 marker)).map (fun p => p.2)

/-- The inputs of one invocation: the three paths, the workbooks found at
the two input paths (`none` when the file does not exist), whether the
save path is writable, and the message of the I/O error raised when it is
not. -/
structure Env where
  templatePath : String
  dataPath : String
  savePath : String
  template : Option Workbook
  data : Option DataFile
  saveWritable : Bool
  saveErrMsg : String

/-- The observable outcome: the returned pair (success flag, optional
error message) and the workbook persisted at the save path (`none` when
no file was produced). -/
structure ProcResult where
  ok : Bool
  msg : Option String
  output : Option Workbook

/-- `process_excel_core` (lines 49-210).  Every failure is caught by the
outermost handler and surfaced as `(False, message)`; exceptions raised
inside get the `"处理失败："` prefix on `str(e)`.  Saving is modelled as
atomic: a writable path receives the fully written workbook, an
unwritable one raises and leaves no output. -/
def process_excel_core (env : Env) : ProcResult :=
  match env.template with
  | none =>
    ⟨false, some ("处理失败：模板文件不存在：" ++ env.templatePath), none⟩
  | some twb =>
    match env.data with
    | none =>
      ⟨false, some ("处理失败：数据文件不存在：" ++ env.dataPath), none⟩
    | some df =>
      match findSheetRows df "发货", findSheetRows df "滞留" with
      | none, _ => ⟨false, some "处理失败：list index out of range", none⟩
      | some _, none => ⟨false, some "处理失败：list index out of range", none⟩
      | some srows, some drows =>
        let merged := mergeRows srows drows
        if merged.isEmpty then
          ⟨false, some "数据文件合并后无有效数据", none⟩
        else
          match twb.sheets.find? (fun p => decide (p.1 = "宁波发货")) with
          | none =>
            ⟨false,
              some "处理失败：\x22模板文件中不存在\x27宁波发货\x27工作表\x22",
              none⟩
          | some sheet =>
            if env.saveWritable then
              ⟨true, none, some (write_output twb sheet.2 merged)⟩
            else
              ⟨false, some ("处理失败：" ++ env.saveErrMsg), none⟩

/-! ## Shared lemmas about the pipelines -/

/-- Every row kept by the shipment pipeline has the target region. -/
theorem shipPipeline_region (s : List RawRow) (m : MergedRow)
    (h : m ∈ shipPipeline s) : m.region = Value.str "舟山区" := by
  simp only [shipPipeline, List.mem_filter, decide_eq_true_eq] at h
  exact h.2

/-- Every backlog row kept by the filter has the target region and a
non-null, non-empty organization. -/
theorem delayFiltered_pred (d : List RawRow) (x : DelayRow)
    (h : x ∈ delayFiltered d) :
    x.region = Value.str "舟山区" ∧ x.organization_check ≠ Value.null ∧
      x.organization_check ≠ Value.str "" := by
  simp only [delayFiltered, List.mem_filter, delayKeep, Bool.and_eq_true,
    decide_eq_true_eq, Bool.not_eq_true', decide_eq_false_iff_not] at h
  exact ⟨h.2.1.1, h.2.1.2, h.2.2⟩

/-- Every row produced by the backlog pipeline has the target region. -/
theorem delayPipeline_region (d : List RawRow) (m : MergedRow)
    (h : m ∈ delayPipeline d) : m.region = Value.str "舟山区" := by
  simp only [delayPipeline, List.mem_map] at h
  obtain ⟨x, hx, rfl⟩ := h
  exact (delayFiltered_pred d x hx).1

/-- Every row of the merged output has the target region. -/
theorem mergeRows_region (s d : List RawRow) (m : MergedRow)
    (h : m ∈ mergeRows s d) : m.region = Value.str "舟山区" := by
  simp only [mergeRows, List.mem_filter, List.mem_append] at h
  rcases h.1 with hs | hd
  · exact shipPipeline_region s m hs
  · exact delayPipeline_region d m hd

/-! ## C1 — region filter and backlog organization filter -/

/-- C1: every row of the merged output has region `"舟山区"`; a backlog
row survives the filter only when its organization field is non-null and
non-empty; and any row value whose region differs from the target literal
is absent from the merged output. -/
theorem region_filter_correct (s d : List RawRow) :
    (∀ m ∈ mergeRows s d, m.region = Value.str "舟山区") ∧
    (∀ x ∈ delayFiltered d, x.region = Value.str "舟山区" ∧
      x.organization_check ≠ Value.null ∧
      x.organization_check ≠ Value.str "") ∧
    (∀ m : MergedRow, m.region ≠ Value.str "舟山区" → m ∉ mergeRows s d) := by
  refine ⟨fun m hm => mergeRows_region s d m hm,
    fun x hx => delayFiltered_pred d x hx, fun m hne hm => ?_⟩
  exact hne (mergeRows_region s d m hm)

/-- Concrete shipment source row in the target region. -/
def shipRaw0 : RawRow := fun k =>
  if k = 3 then Value.str "舟山区"
  else if k = 21 then Value.num 3
  else if k = 28 then Value.dateTime ⟨2024, 1, 2, 8, 0, 0⟩
  else Value.null

/-- Concrete shipment source row outside the target region. -/
def shipRawOther : RawRow := fun k =>
  if k = 3 then Value.str "宁波区" else Value.null

/-- Witness for C1 at concrete inputs: a row carrying the non-target
region `"宁波区"` is absent from the merged output of a one-row shipment
sheet and an empty backlog sheet. -/
theorem region_filter_correct_witness :
    ({ region := Value.str "宁波区", customer := Value.null,
       item_description := Value.null, ship_quantity := Value.null,
       net_weight := Value.null, list_price := Value.null,
       tax_rate := Value.null, signoff_date := Value.null } : MergedRow) ∉
      mergeRows [shipRaw0, shipRawOther] [] :=
  (region_filter_correct [shipRaw0, shipRawOther] []).2.2 _ (by decide)

/-! ## C2 — backlog rows carry a null signoff date -/

/-- C2: every backlog-pipeline row has a null signoff date, and every
merged-output row either came from the shipment pipeline or has a null
signoff date. -/
theorem backlog_signoff_null (s d : List RawRow) :
    (∀ m ∈ delayPipeline d, m.signoff_date = Value.null) ∧
    (∀ m ∈ mergeRows s d, m ∈ shipPipeline s ∨ m.signoff_date = Value.null) := by
  constructor
  · intro m hm
    simp only [delayPipeline, List.mem_map] at hm
    obtain ⟨x, _, rfl⟩ := hm
    rfl
  · intro m hm
    simp only [mergeRows, List.mem_filter, List.mem_append] at hm
    rcases hm.1 with hs | hd
    · exact Or.inl hs
    · refine Or.inr ?_
      simp only [delayPipeline, List.mem_map] at hd
      obtain ⟨x, _, rfl⟩ := hd
      rfl

/-- Concrete backlog source row in the target region with a non-empty
organization; its source even carries a date in the backlog signoff
column position, which is never read. -/
def delayRaw0 : RawRow := fun k =>
  if k = 3 then Value.str "舟山区"
  else if k = 26 then Value.str "宁波库"
  else if k = 27 then Value.num 3
  else Value.null

/-- Witness for C2: the row produced from `delayRaw0` is in the backlog
pipeline output and its signoff date is null. -/
theorem backlog_signoff_null_witness :
    ({ region := Value.str "舟山区", customer := Value.null,
       item_description := Value.null, ship_quantity := Value.num 3,
       net_weight := Value.null, list_price := Value.null,
       tax_rate := Value.null, signoff_date := Value.null } :
        MergedRow).signoff_date = Value.null :=
  (backlog_signoff_null [] [delayRaw0]).1 _ (by decide)

/-! ## C3 — numeric coercion sends parse failures to null -/

/-- C3: a value that does not parse as a number — the empty string
included — is coerced to `null` by the numeric conversion, never to the
number `0`; the conversion is a total function, so no error is raised. -/
theorem numeric_coerce_null (v : Value) (h : parsesAsNum v = false) :
    to_numeric v = Value.null ∧ to_numeric v ≠ Value.num 0 ∧
      to_numeric (Value.str "") = Value.null := by
  have hv : to_numeric v = Value.null := by
    cases v with
    | num q => simp [parsesAsNum] at h
    | str s =>
      cases hp : parseNum s with
      | none => simp [to_numeric, hp]
      | some q => simp [parsesAsNum, hp] at h
    | null => rfl
    | date d => rfl
    | dateTime dt => rfl
    | formula f => rfl
  refine ⟨hv, ?_, ?_⟩
  · rw [hv]; intro hc; exact Value.noConfusion hc
  · decide

/-- Witness for C3 at the empty string: it does not parse as a number and
is coerced to null, not to zero. -/
theorem numeric_coerce_null_witness :
    to_numeric (Value.str "") = Value.null ∧
      to_numeric (Value.str "") ≠ Value.num 0 :=
  ⟨(numeric_coerce_null (Value.str "") (by decide)).1,
    (numeric_coerce_null (Value.str "") (by decide)).2.1⟩

/-! ## C4 — date truncation to the date component -/

/-- C4: when a signoff source value parses as a date-time, the processed
cell keeps exactly the date component (time of day is discarded); when it
does not parse, the cell is null; consequently every shipment-pipeline
row carries either a null or a pure date in its signoff field. -/
theorem date_truncated (v : Value) (s : List RawRow) :
    (∀ dt : DateTime, to_datetime v = some dt →
      processDateCell v = Value.date ⟨dt.year, dt.month, dt.day⟩) ∧
    (to_datetime v = none → processDateCell v = Value.null) ∧
    (∀ m ∈ shipPipeline s,
      m.signoff_date = Value.null ∨ ∃ d0 : Date, m.signoff_date = Value.date d0) := by
  refine ⟨fun dt hdt => ?_, fun hn => ?_, fun m hm => ?_⟩
  · simp [processDateCell, hdt, DateTime.toDate]
  · simp [processDateCell, hn]
  · simp only [shipPipeline, List.mem_filter, List.mem_map] at hm
    obtain ⟨⟨a, _, rfl⟩, _⟩ := hm
    rw [show (normalize_ship_row a).signoff_date = processDateCell a.signoff_date
      from rfl]
    unfold processDateCell
    cases to_datetime a.signoff_date with
    | none => exact Or.inl rfl
    | some dt => exact Or.inr ⟨dt.toDate, rfl⟩

/-- Witness for C4: a date-time with time 08:30:00 is truncated to its
date, and an unparsable string becomes null. -/
theorem date_truncated_witness :
    processDateCell (Value.dateTime ⟨2024, 1, 2, 8, 30, 0⟩) =
        Value.date ⟨2024, 1, 2⟩ ∧
      processDateCell (Value.str "not a date") = Value.null :=
  ⟨(date_truncated (Value.dateTime ⟨2024, 1, 2, 8, 30, 0⟩) []).1
      ⟨2024, 1, 2, 8, 30, 0⟩ rfl,
    (date_truncated (Value.str "not a date") []).2.1 (by decide)⟩

/-! ## C5 — empty merged result is a reported failure, no output -/

/-- C5: when the merged row set is empty after dropping fully-null rows,
`process_excel_core` returns `(false, "数据文件合并后无有效数据")` and
produces no output file. -/
theorem empty_merge_reported (env : Env) (twb : Workbook) (df : DataFile)
    (srows drows : List RawRow)
    (ht : env.template = some twb) (hd : env.data = some df)
    (hs : findSheetRows df "发货" = some srows)
    (hdl : findSheetRows df "滞留" = some drows)
    (hm : mergeRows srows drows = []) :
    process_excel_core env = ⟨false, some "数据文件合并后无有效数据", none⟩ := by
  simp [process_excel_core, ht, hd, hs, hdl, hm]

/-- A blank worksheet. -/
def wsBlank : Worksheet :=
  ⟨fun _ _ => ⟨Value.null, "General"⟩, 1⟩

/-- Concrete environment whose data sheets are both empty. -/
def env5 : Env :=
  ⟨"tpl.xlsx", "data.xlsx", "out.xlsx", some ⟨[("宁波发货", wsBlank)]⟩,
    some [("发货表", []), ("滞留表", [])], true, "oserr"⟩

/-- Witness for C5: two empty data sheets give the empty-data failure and
no output. -/
theorem empty_merge_reported_witness :
    process_excel_core env5 = ⟨false, some "数据文件合并后无有效数据", none⟩ :=
  empty_merge_reported env5 ⟨[("宁波发货", wsBlank)]⟩
    [("发货表", []), ("滞留表", [])] [] [] rfl rfl rfl rfl rfl

/-! ## C8 — the result is always a well-formed (flag, message) pair -/

/-- C8: on every input, `process_excel_core` returns either success with
no message or failure with some message string; being a total function
into `ProcResult`, it never raises. -/
theorem result_well_formed (env : Env) :
    ((process_excel_core env).ok = true ∧ (process_excel_core env).msg = none) ∨
    ((process_excel_core env).ok = false ∧
      ∃ s, (process_excel_core env).msg = some s) := by
  obtain ⟨tp, dp, sp, tmpl, dat, sw, sem⟩ := env
  cases tmpl with
  | none => exact Or.inr ⟨rfl, _, rfl⟩
  | some twb =>
  cases dat with
  | none => exact Or.inr ⟨rfl, _, rfl⟩
  | some df =>
  simp only [process_excel_core]
  cases findSheetRows df "发货" with
  | none => exact Or.inr ⟨rfl, _, rfl⟩
  | some srows =>
  cases findSheetRows df "滞留" with
  | none => exact Or.inr ⟨rfl, _, rfl⟩
  | some drows =>
  cases he : (mergeRows srows drows).isEmpty with
  | true => simp only [he]; exact Or.inr ⟨rfl, _, rfl⟩
  | false =>
  simp only [he]
  cases twb.sheets.find? (fun p => decide (p.1 = "宁波发货")) with
  | none => exact Or.inr ⟨rfl, _, rfl⟩
  | some sheet =>
  cases sw with
  | true => exact Or.inl ⟨rfl, rfl⟩
  | false => exact Or.inr ⟨rfl, _, rfl⟩

/-! ## C9 — no partial-success state -/

/-- C9: the routine produces an output workbook exactly when it returns
success, and on success the output is the complete write of all merged
rows into the template; every failure leaves no output. -/
theorem no_partial_output (env : Env) :
    ((process_excel_core env).ok = false ↔
      (process_excel_core env).output = none) ∧
    ((process_excel_core env).ok = true →
      ∃ twb df srows drows sheet,
        env.template = some twb ∧ env.data = some df ∧
        findSheetRows df "发货" = some srows ∧
        findSheetRows df "滞留" = some drows ∧
        twb.sheets.find? (fun p => decide (p.1 = "宁波发货")) = some sheet ∧
        mergeRows srows drows ≠ [] ∧
        (process_excel_core env).msg = none ∧
        (process_excel_core env).output =
          some (write_output twb sheet.2 (mergeRows srows drows))) := by
  obtain ⟨tp, dp, sp, tmpl, dat, sw, sem⟩ := env
  cases tmpl with
  | none => exact ⟨by simp [process_excel_core], by simp [process_excel_core]⟩
  | some twb =>
  cases dat with
  | none => exact ⟨by simp [process_excel_core], by simp [process_excel_core]⟩
  | some df =>
  simp only [process_excel_core]
  cases hs1 : findSheetRows df "发货" with
  | none => exact ⟨by simp, by simp⟩
  | some srows =>
  cases hs2 : findSheetRows df "滞留" with
  | none => exact ⟨by simp, by simp⟩
  | some drows =>
  cases he : (mergeRows srows drows).isEmpty with
  | true => simp only [he]; exact ⟨by simp, by simp⟩
  | false =>
  simp only [he]
  cases hf : twb.sheets.find? (fun p => decide (p.1 = "宁波发货")) with
  | none => exact ⟨by simp, by simp⟩
  | some sheet =>
  cases sw with
  | true =>
    refine ⟨by simp, fun _ => ⟨twb, df, srows, drows, sheet, rfl, rfl, hs1, hs2,
      hf, ?_, rfl, rfl⟩⟩
    intro hnil
    rw [hnil] at he
    exact Bool.noConfusion he
  | false => exact ⟨by simp, by simp⟩

/-- Concrete environment for a fully successful run. -/
def envS : Env :=
  ⟨"tpl.xlsx", "data.xlsx", "out.xlsx", some ⟨[("宁波发货", wsBlank)]⟩,
    some [("发货明细", [shipRaw0]), ("滞留明细", [delayRaw0])], true, "oserr"⟩

/-- Witness for C9: a successful run produces exactly the complete write
of the merged rows. -/
theorem no_partial_output_witness :
    ∃ twb df srows drows sheet,
      envS.template = some twb ∧ envS.data = some df ∧
      findSheetRows df "发货" = some srows ∧
      findSheetRows df "滞留" = some drows ∧
      twb.sheets.find? (fun p => decide (p.1 = "宁波发货")) = some sheet ∧
      mergeRows srows drows ≠ [] ∧
      (process_excel_core envS).msg = none ∧
      (process_excel_core envS).output =
        some (write_output twb sheet.2 (mergeRows srows drows)) :=
  (no_partial_output envS).2 rfl

/-! ## C10 — the empty-result check precedes the template sheet check -/

/-- C10: when the merged row set is empty, the empty-data failure is
returned even for a template that lacks the `"宁波发货"` sheet — the
empty-result check runs before the template is consulted. -/
theorem empty_check_precedes_sheet_check (env : Env) (twb : Workbook)
    (df : DataFile) (srows drows : List RawRow)
    (ht : env.template = some twb)
    (_hnosheet : twb.sheets.find? (fun p => decide (p.1 = "宁波发货")) = none)
    (hd : env.data = some df)
    (hs : findSheetRows df "发货" = some srows)
    (hdl : findSheetRows df "滞留" = some drows)
    (hm : mergeRows srows drows = []) :
    process_excel_core env = ⟨false, some "数据文件合并后无有效数据", none⟩ := by
  simp [process_excel_core, ht, hd, hs, hdl, hm]

/-- Concrete environment with empty data sheets and a template that does
not contain the `"宁波发货"` sheet. -/
def env10 : Env :=
  ⟨"tpl.xlsx", "data.xlsx", "out.xlsx", some ⟨[("Sheet1", wsBlank)]⟩,
    some [("发货表", []), ("滞留表", [])], true, "oserr"⟩

/-- Witness for C10: the empty-data failure wins over the missing target
sheet. -/
theorem empty_check_precedes_sheet_check_witness :
    process_excel_core env10 = ⟨false, some "数据文件合并后无有效数据", none⟩ :=
  empty_check_precedes_sheet_check env10 ⟨[("Sheet1", wsBlank)]⟩
    [("发货表", []), ("滞留表", [])] [] [] rfl rfl rfl rfl rfl rfl

/-! ## Cell-level lemmas for the template writer -/

/-- The numeric/date columns whose display format is re-assigned. -/
def format_columns : List Nat := [21, 24, 26, 43, 45]

/-- Pointwise effect of a value write. -/
theorem setCellValue_cells (w : Worksheet) (r c : Nat) (v : Value) (q p : Nat) :
    (setCellValue w r c v).cells q p =
      if q = r ∧ p = c then { w.cells q p with value := v } else w.cells q p :=
  rfl

/-- A value write leaves every other cell unchanged. -/
theorem setCellValue_cells_ne (w : Worksheet) (r c : Nat) (v : Value)
    (q p : Nat) (h : ¬(q = r ∧ p = c)) :
    (setCellValue w r c v).cells q p = w.cells q p := by
  simp [setCellValue, h]

/-- A value write never changes a number format. -/
theorem setCellValue_format (w : Worksheet) (r c : Nat) (v : Value)
    (q p : Nat) :
    ((setCellValue w r c v).cells q p).numberFormat =
      (w.cells q p).numberFormat := by
  by_cases h : q = r ∧ p = c <;> simp [setCellValue, h]

/-- Pointwise effect of a format write. -/
theorem setCellFormat_cells (w : Worksheet) (r c : Nat) (fmt : String)
    (q p : Nat) :
    (setCellFormat w r c fmt).cells q p =
      if q = r ∧ p = c then { w.cells q p with numberFormat := fmt }
      else w.cells q p :=
  rfl

/-- A format write leaves every other cell unchanged. -/
theorem setCellFormat_cells_ne (w : Worksheet) (r c : Nat) (fmt : String)
    (q p : Nat) (h : ¬(q = r ∧ p = c)) :
    (setCellFormat w r c fmt).cells q p = w.cells q p := by
  simp [setCellFormat, h]

/-- A format write never changes a value. -/
theorem setCellFormat_value (w : Worksheet) (r c : Nat) (fmt : String)
    (q p : Nat) :
    ((setCellFormat w r c fmt).cells q p).value = (w.cells q p).value := by
  by_cases h : q = r ∧ p = c <;> simp [setCellFormat, h]

/-- Complete pointwise characterization of `writeRow`. -/
theorem writeRow_cells (w : Worksheet) (r : Nat) (m : MergedRow) (q p : Nat) :
    (writeRow w r m).cells q p =
      if q = r then
        if p = 4 then { w.cells q p with value := m.region }
        else if p = 8 then { w.cells q p with value := m.customer }
        else if p = 15 then { w.cells q p with value := m.item_description }
        else if p = 21 then ⟨m.ship_quantity, "0.00"⟩
        else if p = 24 then ⟨m.net_weight, "0.000"⟩
        else if p = 26 then ⟨m.list_price, "0.00"⟩
        else if p = 43 then ⟨m.tax_rate, "0.00%"⟩
        else if p = 45 then ⟨m.signoff_date, "yyyy/mm/dd"⟩
        else w.cells q p
      else w.cells q p := by
  by_cases hq : q = r
  · subst hq
    by_cases h4 : p = 4
    · subst h4; simp [writeRow, setCellValue, setCellFormat]
    · by_cases h8 : p = 8
      · subst h8; simp [writeRow, setCellValue, setCellFormat]
      · by_cases h15 : p = 15
        · subst h15; simp [writeRow, setCellValue, setCellFormat]
        · by_cases h21 : p = 21
          · subst h21; simp [writeRow, setCellValue, setCellFormat]
          · by_cases h24 : p = 24
            · subst h24; simp [writeRow, setCellValue, setCellFormat]
            · by_cases h26 : p = 26
              · subst h26; simp [writeRow, setCellValue, setCellFormat]
              · by_cases h43 : p = 43
                · subst h43; simp [writeRow, setCellValue, setCellFormat]
                · by_cases h45 : p = 45
                  · subst h45; simp [writeRow, setCellValue, setCellFormat]
                  · simp [writeRow, setCellValue, setCellFormat, h4, h8, h15,
                      h21, h24, h26, h43, h45]
  · simp [writeRow, setCellValue, setCellFormat, hq]

/-- `writeRow` leaves rows other than `r` and columns outside the fixed
set unchanged. -/
theorem writeRow_cells_ne (w : Worksheet) (r : Nat) (m : MergedRow)
    (q p : Nat) (h : q ≠ r ∨ p ∉ clean_columns) :
    (writeRow w r m).cells q p = w.cells q p := by
  rw [writeRow_cells]
  rcases h with hq | hp
  · simp [hq]
  · simp only [clean_columns, List.mem_cons, List.not_mem_nil, or_false,
      not_or] at hp
    obtain ⟨n4, n8, n15, n21, n24, n26, n43, n45⟩ := hp
    simp [n4, n8, n15, n21, n24, n26, n43, n45]

/-- `writeRow` changes number formats only in the numeric/date columns of
its own row. -/
theorem writeRow_format_ne (w : Worksheet) (r : Nat) (m : MergedRow)
    (q p : Nat) (h : q ≠ r ∨ p ∉ format_columns) :
    ((writeRow w r m).cells q p).numberFormat =
      (w.cells q p).numberFormat := by
  rw [writeRow_cells]
  rcases h with hq | hp
  · simp [hq]
  · simp only [format_columns, List.mem_cons, List.not_mem_nil, or_false,
      not_or] at hp
    obtain ⟨n21, n24, n26, n43, n45⟩ := hp
    by_cases hq : q = r
    · simp [hq, n21, n24, n26, n43, n45]
      by_cases h4 : p = 4
      · simp [h4]
      · by_cases h8 : p = 8
        · simp [h8]
        · by_cases h15 : p = 15
          · simp [h15]
          · simp [h4, h8, h15]
    · simp [hq]

/-- Complete pointwise characterization of `clearRowCols`. -/
theorem clearRowCols_cells (w : Worksheet) (r : Nat) (q p : Nat) :
    (clearRowCols w r).cells q p =
      if q = r ∧ p ∈ clean_columns then
        { w.cells q p with value := Value.null }
      else w.cells q p := by
  by_cases hq : q = r
  · subst hq
    by_cases h4 : p = 4
    · subst h4; simp [clearRowCols, clean_columns, setCellValue]
    · by_cases h8 : p = 8
      · subst h8; simp [clearRowCols, clean_columns, setCellValue]
      · by_cases h15 : p = 15
        · subst h15; simp [clearRowCols, clean_columns, setCellValue]
        · by_cases h21 : p = 21
          · subst h21; simp [clearRowCols, clean_columns, setCellValue]
          · by_cases h24 : p = 24
            · subst h24; simp [clearRowCols, clean_columns, setCellValue]
            · by_cases h26 : p = 26
              · subst h26; simp [clearRowCols, clean_columns, setCellValue]
              · by_cases h43 : p = 43
                · subst h43; simp [clearRowCols, clean_columns, setCellValue]
                · by_cases h45 : p = 45
                  · subst h45; simp [clearRowCols, clean_columns, setCellValue]
                  · simp [clearRowCols, clean_columns, setCellValue, h4, h8,
                      h15, h21, h24, h26, h43, h45]
  · simp [clearRowCols, clean_columns, setCellValue, hq]

/-- The cleaning loop leaves rows outside `[r, r+k)` and columns outside
the fixed set unchanged. -/
theorem clearRows_cells_ne (k : Nat) :
    ∀ (w : Worksheet) (r q p : Nat),
      (q < r ∨ r + k ≤ q ∨ p ∉ clean_columns) →
      (clearRows w r k).cells q p = w.cells q p := by
  induction k with
  | zero => intro w r q p _; rfl
  | succ k ih =>
    intro w r q p h
    show (clearRows (clearRowCols w r) (r + 1) k).cells q p = _
    rw [ih (clearRowCols w r) (r + 1) q p (by
      rcases h with h | h | h
      · exact Or.inl (by omega)
      · exact Or.inr (Or.inl (by omega))
      · exact Or.inr (Or.inr h))]
    rw [clearRowCols_cells, if_neg]
    rintro ⟨rfl, hp⟩
    rcases h with h | h | h
    · omega
    · omega
    · exact h hp

/-- The cleaning loop never changes a number format. -/
theorem clearRows_format (k : Nat) :
    ∀ (w : Worksheet) (r q p : Nat),
      ((clearRows w r k).cells q p).numberFormat =
        (w.cells q p).numberFormat := by
  induction k with
  | zero => intro w r q p; rfl
  | succ k ih =>
    intro w r q p
    show ((clearRows (clearRowCols w r) (r + 1) k).cells q p).numberFormat = _
    rw [ih (clearRowCols w r) (r + 1) q p, clearRowCols_cells]
    by_cases h : q = r ∧ p ∈ clean_columns <;> simp [h]

/-- The filling loop leaves rows outside `[start, start+rows.length)` and
columns outside the fixed set unchanged. -/
theorem writeRows_cells_ne (rows : List MergedRow) :
    ∀ (w : Worksheet) (start q p : Nat),
      (q < start ∨ start + rows.length ≤ q ∨ p ∉ clean_columns) →
      (writeRows w start rows).cells q p = w.cells q p := by
  induction rows with
  | nil => intro w start q p _; rfl
  | cons m rest ih =>
    intro w start q p h
    show (writeRows (writeRow w start m) (start + 1) rest).cells q p = _
    rw [ih (writeRow w start m) (start + 1) q p (by
      rcases h with h | h | h
      · exact Or.inl (by omega)
      · exact Or.inr (Or.inl (by simp only [List.length_cons] at h; omega))
      · exact Or.inr (Or.inr h))]
    refine writeRow_cells_ne w start m q p ?_
    rcases h with h | h | h
    · exact Or.inl (by omega)
    · exact Or.inl (by simp only [List.length_cons] at h; omega)
    · exact Or.inr h

/-- The filling loop changes number formats only inside the written row
range and the numeric/date columns. -/
theorem writeRows_format_ne (rows : List MergedRow) :
    ∀ (w : Worksheet) (start q p : Nat),
      (q < start ∨ start + rows.length ≤ q ∨ p ∉ format_columns) →
      ((writeRows w start rows).cells q p).numberFormat =
        (w.cells q p).numberFormat := by
  induction rows with
  | nil => intro w start q p _; rfl
  | cons m rest ih =>
    intro w start q p h
    show ((writeRows (writeRow w start m) (start + 1) rest).cells q p).numberFormat = _
    rw [ih (writeRow w start m) (start + 1) q p (by
      rcases h with h | h | h
      · exact Or.inl (by omega)
      · exact Or.inr (Or.inl (by simp only [List.length_cons] at h; omega))
      · exact Or.inr (Or.inr h))]
    refine writeRow_format_ne w start m q p ?_
    rcases h with h | h | h
    · exact Or.inl (by omega)
    · exact Or.inl (by simp only [List.length_cons] at h; omega)
    · exact Or.inr h

/-- `writeRow` looks at the prior worksheet state only through the cell
being written. -/
theorem writeRow_cells_state_eq (w1 w2 : Worksheet) (r : Nat) (m : MergedRow)
    (q p : Nat) (hqp : w1.cells q p = w2.cells q p) :
    (writeRow w1 r m).cells q p = (writeRow w2 r m).cells q p := by
  rw [writeRow_cells, writeRow_cells, hqp]

/-- The filling loop puts list element `i` into spreadsheet row
`start + i`: the cell there is exactly what a single `writeRow` of that
element produces. -/
theorem writeRows_get (rows : List MergedRow) :
    ∀ (w : Worksheet) (start i : Nat) (h : i < rows.length) (p : Nat),
      (writeRows w start rows).cells (start + i) p =
        (writeRow w (start + i) (rows.get ⟨i, h⟩)).cells (start + i) p := by
  induction rows with
  | nil => intro w start i h p; exact absurd h (by simp)
  | cons m rest ih =>
    intro w start i h p
    show (writeRows (writeRow w start m) (start + 1) rest).cells (start + i) p = _
    cases i with
    | zero =>
      rw [writeRows_cells_ne rest (writeRow w start m) (start + 1) (start + 0) p
        (Or.inl (by omega))]
      rfl
    | succ j =>
      have hj : j < rest.length := by
        simp only [List.length_cons] at h; omega
      have hstep : start + (j + 1) = (start + 1) + j := by omega
      rw [hstep, ih (writeRow w start m) (start + 1) j hj p]
      exact writeRow_cells_state_eq _ _ _ _ _ _
        (writeRow_cells_ne w start m _ p (Or.inl (by omega)))

/-! ## C6 — formatting-preservation frame property -/

/-- C6: a cell outside the fixed column set, or inside it but outside
both the cleared row range `2..maxRow` and the written row range
`2..1+rows.length`, keeps its exact original value and number format (a
formula being a value); and a number format can change only at written
cells of the numeric/date columns. -/
theorem untouched_cells_preserved (ws : Worksheet) (rows : List MergedRow)
    (r c : Nat) :
    ((c ∉ clean_columns ∨
        (¬(2 ≤ r ∧ r ≤ ws.maxRow) ∧ ¬(2 ≤ r ∧ r < 2 + rows.length))) →
      (writeRows (clearTemplate ws) 2 rows).cells r c = ws.cells r c) ∧
    (((writeRows (clearTemplate ws) 2 rows).cells r c).numberFormat ≠
        (ws.cells r c).numberFormat →
      c ∈ format_columns ∧ 2 ≤ r ∧ r < 2 + rows.length) := by
  constructor
  · intro h
    have hw : r < 2 ∨ 2 + rows.length ≤ r ∨ c ∉ clean_columns := by
      rcases h with hc | ⟨h1, h2⟩
      · exact Or.inr (Or.inr hc)
      · rcases Nat.lt_or_ge r 2 with h3 | h3
        · exact Or.inl h3
        · exact Or.inr (Or.inl (by omega))
    rw [writeRows_cells_ne rows (clearTemplate ws) 2 r c hw]
    refine clearRows_cells_ne (ws.maxRow - 1) ws 2 r c ?_
    rcases h with hc | ⟨h1, h2⟩
    · exact Or.inr (Or.inr hc)
    · rcases Nat.lt_or_ge r 2 with h3 | h3
      · exact Or.inl h3
      · exact Or.inr (Or.inl (by omega))
  · intro hne
    have hfmt : (r < 2 ∨ 2 + rows.length ≤ r ∨ c ∉ format_columns) →
        ((writeRows (clearTemplate ws) 2 rows).cells r c).numberFormat =
          (ws.cells r c).numberFormat := by
      intro hcond
      rw [writeRows_format_ne rows (clearTemplate ws) 2 r c hcond]
      exact clearRows_format (ws.maxRow - 1) ws 2 r c
    by_cases hc : c ∈ format_columns
    · by_cases hr : 2 ≤ r ∧ r < 2 + rows.length
      · exact ⟨hc, hr.1, hr.2⟩
      · refine absurd (hfmt ?_) hne
        rcases Nat.lt_or_ge r 2 with h3 | h3
        · exact Or.inl h3
        · exact Or.inr (Or.inl (by omega))
    · exact absurd (hfmt (Or.inr (Or.inr hc))) hne

/-- A merged row with every field null. -/
def mwNull : MergedRow :=
  ⟨Value.null, Value.null, Value.null, Value.null, Value.null, Value.null,
    Value.null, Value.null⟩

/-- Witness for C6: the header cell (row 1, column 4) is untouched by the
clean-and-fill of one row. -/
theorem untouched_cells_preserved_witness :
    (writeRows (clearTemplate wsBlank) 2 [mwNull]).cells 1 4 =
      wsBlank.cells 1 4 :=
  (untouched_cells_preserved wsBlank [mwNull] 1 4).1 (by decide)

/-! ## C7 — written placement, column mapping and per-cell formats -/

/-- C7: the merged data is the filtered shipment rows followed by the
filtered backlog rows (fully-null rows dropped); element `i` lands in
spreadsheet row `2+i` with region→col 4, customer→col 8, item→col 15,
quantity→col 21, weight→col 24, price→col 26, tax→col 43, signoff→col 45,
and the written cells of the numeric/date columns carry the literal
formats `0.00`, `0.000`, `0.00`, `0.00%`, `yyyy/mm/dd`. -/
theorem merged_rows_written (ws : Worksheet) (s d : List RawRow) (i : Nat)
    (h : i < (mergeRows s d).length) :
    mergeRows s d =
      ((shipPipeline s) ++ (delayPipeline d)).filter
        (fun m => !(row_all_null m)) ∧
    ((writeRows (clearTemplate ws) 2 (mergeRows s d)).cells (2 + i) 4).value =
      ((mergeRows s d).get ⟨i, h⟩).region ∧
    ((writeRows (clearTemplate ws) 2 (mergeRows s d)).cells (2 + i) 8).value =
      ((mergeRows s d).get ⟨i, h⟩).customer ∧
    ((writeRows (clearTemplate ws) 2 (mergeRows s d)).cells (2 + i) 15).value =
      ((mergeRows s d).get ⟨i, h⟩).item_description ∧
    ((writeRows (clearTemplate ws) 2 (mergeRows s d)).cells (2 + i) 21).value =
      ((mergeRows s d).get ⟨i, h⟩).ship_quantity ∧
    ((writeRows (clearTemplate ws) 2 (mergeRows s d)).cells (2 + i) 24).value =
      ((mergeRows s d).get ⟨i, h⟩).net_weight ∧
    ((writeRows (clearTemplate ws) 2 (mergeRows s d)).cells (2 + i) 26).value =
      ((mergeRows s d).get ⟨i, h⟩).list_price ∧
    ((writeRows (clearTemplate ws) 2 (mergeRows s d)).cells (2 + i) 43).value =
      ((mergeRows s d).get ⟨i, h⟩).tax_rate ∧
    ((writeRows (clearTemplate ws) 2 (mergeRows s d)).cells (2 + i) 45).value =
      ((mergeRows s d).get ⟨i, h⟩).signoff_date ∧
    ((writeRows (clearTemplate ws) 2 (mergeRows s d)).cells (2 + i) 21).numberFormat =
      "0.00" ∧
    ((writeRows (clearTemplate ws) 2 (mergeRows s d)).cells (2 + i) 24).numberFormat =
      "0.000" ∧
    ((writeRows (clearTemplate ws) 2 (mergeRows s d)).cells (2 + i) 26).numberFormat =
      "0.00" ∧
    ((writeRows (clearTemplate ws) 2 (mergeRows s d)).cells (2 + i) 43).numberFormat =
      "0.00%" ∧
    ((writeRows (clearTemplate ws) 2 (mergeRows s d)).cells (2 + i) 45).numberFormat =
      "yyyy/mm/dd" := by
  have base : ∀ p : Nat,
      (writeRows (clearTemplate ws) 2 (mergeRows s d)).cells (2 + i) p =
        (writeRow (clearTemplate ws) (2 + i)
          ((mergeRows s d).get ⟨i, h⟩)).cells (2 + i) p :=
    fun p => writeRows_get (mergeRows s d) (clearTemplate ws) 2 i h p
  refine ⟨rfl, ?_, ?_, ?_, ?_, ?_, ?_, ?_, ?_, ?_, ?_, ?_, ?_, ?_⟩ <;>
    rw [base, writeRow_cells] <;> simp

/-- Witness for C7: with one shipment row, the signoff-date cell of row 2
carries the truncated date value and the `yyyy/mm/dd` format, and the
quantity cell carries the `0.00` format. -/
theorem merged_rows_written_witness :
    ((writeRows (clearTemplate wsBlank) 2 (mergeRows [shipRaw0] [])).cells 2
        45).value =
      ((mergeRows [shipRaw0] []).get ⟨0, by decide⟩).signoff_date ∧
    ((writeRows (clearTemplate wsBlank) 2 (mergeRows [shipRaw0] [])).cells 2
        21).numberFormat = "0.00" :=
  ⟨(merged_rows_written wsBlank [shipRaw0] [] 0 (by decide)).2.2.2.2.2.2.2.2.1,
    (merged_rows_written wsBlank [shipRaw0] [] 0
      (by decide)).2.2.2.2.2.2.2.2.2.1⟩

end BatchIntegration
